import Mathlib

/-!
Shallow embedding of the `minimap-ts-rpc` repository's core
(`src/lib/router.ts`, `src/lib/client.ts`, `src/lib/http-client.ts`,
`src/lib/http-router.ts`, `src/lib/types.ts`) in Lean 4, together with
theorems settling the specification claims about it.

JavaScript runtime values that can cross the RPC boundary are modelled by
`JsValue` (JSON-style data plus `undefined`); provider-table entries may
additionally be functions, modelled by `Entry`.  Numbers are modelled as
integers: every number appearing in the spec, the examples or the claims is
an integer, and no arithmetic is performed on them by the code under study.
-/

/-- A JavaScript value of the kinds that appear as RPC arguments, results,
thrown values and parsed JSON: `undefined`, `null`, booleans, numbers,
strings, arrays and plain objects (ordered key/value lists, keys unique). -/
inductive JsValue where
  | undefined : JsValue
  | null : JsValue
  | bool (b : Bool) : JsValue
  | num (n : Int) : JsValue
  | str (s : String) : JsValue
  | arr (elems : List JsValue) : JsValue
  | obj (fields : List (String × JsValue)) : JsValue

/-- JavaScript truthiness: `undefined`, `null`, `false`, `0` and `""` are
falsy; every other value modelled here (any array or object included) is
truthy. -/
def jsTruthy : JsValue → Bool
  | .undefined => false
  | .null => false
  | .bool b => b
  | .num n => n != 0
  | .str s => s != ""
  | .arr _ => true
  | .obj _ => true

/-- `typeof v` for the modelled values. -/
def jsTypeof : JsValue → String
  | .undefined => "undefined"
  | .null => "object"
  | .bool _ => "boolean"
  | .num _ => "number"
  | .str _ => "string"
  | .arr _ => "object"
  | .obj _ => "object"

mutual
/-- JavaScript string coercion as performed by template literals
(`${v}`) and by property-key coercion: `undefined` ↦ `"undefined"`,
`null` ↦ `"null"`, arrays join their elements with `","` (with `null` and
`undefined` elements rendered empty), objects render as
`"[object Object]"`. -/
def jsToString : JsValue → String
  | .undefined => "undefined"
  | .null => "null"
  | .bool b => if b then "true" else "false"
  | .num n => toString n
  | .str s => s
  | .arr elems => jsJoinElems elems
  | .obj _ => "[object Object]"

/-- `Array.prototype.join(",")` on the element list, as used by array
string coercion: `null` and `undefined` elements render as the empty
string. -/
def jsJoinElems : List JsValue → String
  | [] => ""
  | [v] => jsElemToString v
  | v :: rest => jsElemToString v ++ "," ++ jsJoinElems rest

/-- String coercion of a single array element inside a join: the same as
`jsToString` except that `null` and `undefined` render empty. -/
def jsElemToString : JsValue → String
  | .undefined => ""
  | .null => ""
  | .bool b => if b then "true" else "false"
  | .num n => toString n
  | .str s => s
  | .arr elems => jsJoinElems elems
  | .obj _ => "[object Object]"
end

/-- JavaScript property access `v[name]` for the accesses the code
performs (destructuring the parsed request body): objects yield the value
of the named field (or `undefined`), arrays and strings yield their
`length` for the name `"length"` and `undefined` for the other names the
code uses, and every other receiver used by the code yields `undefined`.
(Access on `null`/`undefined` throws instead; the embedding of
`HttpRpcRouter.handle` treats that case separately.) -/
def jsGet (v : JsValue) (name : String) : JsValue :=
  match v with
  | .obj fields =>
    match fields.lookup name with
    | some w => w
    | none => .undefined
  | .arr elems => if name = "length" then .num elems.length else .undefined
  | .str s => if name = "length" then .num s.length else .undefined
  | _ => .undefined

/-- A value thrown (or an awaited rejection) inside the server:
an `RpcRoutingError` (from `types.ts`: `class RpcRoutingError extends
Error` whose constructor only forwards the message), some other `Error`
(with its `name`, `message`, optional `stack` and optional `cause`), or a
non-`Error` value. -/
inductive Thrown where
  | routing (message : String) : Thrown
  | error (name message : String) (stack : Option String)
      (cause : Option JsValue) : Thrown
  | value (v : JsValue) : Thrown

/-- `RpcRoutingError`'s constructor (`types.ts`) calls `super(message)`
and assigns nothing else, so instances inherit `Error.prototype.name`,
which is the string `"Error"`. -/
def rpcRoutingErrorName : String := "Error"

/-- The settled outcome of awaiting a procedure call or of `invoke`:
either a resolved value or a thrown/rejected `Thrown`. -/
inductive ProcResult where
  | ok (v : JsValue) : ProcResult
  | thrown (e : Thrown) : ProcResult

/-- An entry of a provider object: a function (taking the positional
argument list to a settled outcome), or a plain data value stored under
the procedure's name. -/
inductive Entry where
  | fn (f : List JsValue → ProcResult) : Entry
  | val (v : JsValue) : Entry

/-- A provider: a mapping from procedure name to entry
(`RemoteProcedureProvider` in `types.ts`), keys unique. -/
def Provider := List (String × Entry)

/-- A provider table: a mapping from provider name to provider
(`RemoteProcedureProviders` in `types.ts`), keys unique. -/
def Providers := List (String × Provider)

/-- Truthiness of `providerInstance[procedure]`: a missing entry is
`undefined` (falsy); a function is truthy; a data value has its own
truthiness. -/
def entryTruthy : Option Entry → Bool
  | none => false
  | some (.fn _) => true
  | some (.val v) => jsTruthy v

/-- The spread `(...args)` of the `args` value into a positional argument
list: arrays spread to their elements, strings spread to their characters,
and any other value is not iterable (spreading it throws a `TypeError`). -/
def spreadArgs : JsValue → Option (List JsValue)
  | .arr elems => some elems
  | .str s => some (s.toList.map fun c => .str (String.mk [c]))
  | _ => none

/-- `RpcRouter.invoke` from `src/lib/router.ts`, line by line, paired with
the list of argument lists the resolved procedure is applied to (the
source has exactly one call site, `providerInstance[procedure](...args)`,
and the trace records each application made there).

The source:
```
if (!provider || !procedure || !args) { throw new RpcRoutingError(
  `Invalid request: provider=${provider}, procedure=${procedure}, args=${args}`) }
const providerInstance = this.providers[provider];
if (!providerInstance) { throw new RpcRoutingError(`Provider with name ${provider} not found`) }
if (!providerInstance[procedure]) { throw new RpcRoutingError(
  `Procedure ${procedure} not found on provider ${provider}`) }
if (typeof providerInstance[procedure] !== "function") { throw new RpcRoutingError(
  `Property ${procedure} is not a function on provider ${provider} so it cannot be called`) }
return await providerInstance[procedure](...args);
```
-/
def RpcRouter.invokeWithTrace (providers : Providers)
    (provider procedure args : JsValue) :
    ProcResult × List (List JsValue) :=
  if ¬ jsTruthy provider ∨ ¬ jsTruthy procedure ∨ ¬ jsTruthy args then
    (.thrown (.routing ("Invalid request: provider=" ++ jsToString provider
      ++ ", procedure=" ++ jsToString procedure
      ++ ", args=" ++ jsToString args)), [])
  else
    match providers.lookup (jsToString provider) with
    | none =>
      (.thrown (.routing ("Provider with name " ++ jsToString provider
        ++ " not found")), [])
    | some providerInstance =>
      let entry := providerInstance.lookup (jsToString procedure)
      if ¬ entryTruthy entry then
        (.thrown (.routing ("Procedure " ++ jsToString procedure
          ++ " not found on provider " ++ jsToString provider)), [])
      else
        match entry with
        | some (.fn f) =>
          match spreadArgs args with
          | some argList => (f argList, [argList])
          | none =>
            (.thrown (.error "TypeError"
              (jsToString args ++ " is not iterable") none none), [])
        | _ =>
          (.thrown (.routing ("Property " ++ jsToString procedure
            ++ " is not a function on provider " ++ jsToString provider
            ++ " so it cannot be called")), [])

/-- The outcome of `RpcRouter.invoke` (first component of the traced
semantics). -/
def RpcRouter.invoke (providers : Providers)
    (provider procedure args : JsValue) : ProcResult :=
  (RpcRouter.invokeWithTrace providers provider procedure args).1

/-- An HTTP response as the code constructs it: a status code and the
JSON value serialized into the body (`new Response(JSON.stringify(v), ...)`).
The body is modelled pre-serialization; JSON serialize/parse is the
identity on the values crossing the boundary, so `result.json()` on the
other side yields this value. -/
structure HttpResponse where
  status : Nat
  body : JsValue

/-- The `TypeError` the runtime throws when the router destructures
`{ provider, method, args }` from a `null` or `undefined` request body
(the exact message is engine-specific and unobserved by any claim). -/
def destructureTypeError : Thrown :=
  .error "TypeError" "Cannot destructure property of null or undefined"
    none none

/-- An optional `stack`/`cause` field of a caught `Error`, as a JS value
(`undefined` when absent; `JSON.stringify` then omits the field). -/
def jsOfOptionStr : Option String → JsValue
  | some s => .str s
  | none => .undefined

/-- An optional `cause` value of a caught `Error`, as a JS value. -/
def jsOfOptionVal : Option JsValue → JsValue
  | some v => v
  | none => .undefined

/-- `HttpRpcRouter.handle` from `src/lib/http-router.ts`: destructure
`{ provider, method, args }` from the parsed request body, call
`this.invoke(provider, method, args)`, and map the outcome:
success → status 200 with the result as body; caught `RpcRoutingError` →
status 400 with body `{ name: e.name, error: e.message }`; caught other
`Error` → status 500 with body
`{ name: e.name, error: e.message, stack: e.stack, cause: e.cause }`;
caught non-`Error` value → status 500 with body
`{ error: "Unknown Internal Server error of type: <typeof e>" }`. -/
def HttpRpcRouter.handle (providers : Providers) (req : JsValue) :
    HttpResponse :=
  let attempt : ProcResult :=
    match req with
    | .null => .thrown destructureTypeError
    | .undefined => .thrown destructureTypeError
    | _ => RpcRouter.invoke providers
        (jsGet req "provider") (jsGet req "method") (jsGet req "args")
  match attempt with
  | .ok result => ⟨200, result⟩
  | .thrown (.routing msg) =>
    ⟨400, .obj [("name", .str rpcRoutingErrorName), ("error", .str msg)]⟩
  | .thrown (.error nm msg stack cause) =>
    ⟨500, .obj [("name", .str nm), ("error", .str msg),
      ("stack", jsOfOptionStr stack), ("cause", jsOfOptionVal cause)]⟩
  | .thrown (.value v) =>
    ⟨500, .obj [("error",
      .str ("Unknown Internal Server error of type: " ++ jsTypeof v))]⟩

/-- The call-projection object returned by `RpcClient.get`
(`src/lib/client.ts`): a `Proxy` whose `get` trap, for any property name,
synthesizes a fresh callable `(...args) => this.handle(provider, method,
args)`.  `access` is the trap: property name to callable. -/
structure CallProjection (R : Type) where
  access : String → List JsValue → R

/-- `RpcClient.get` from `src/lib/client.ts`, parametric in the abstract
transport-send operation `handle` that subclasses supply: `get(provider)`
returns the proxy whose every property `method` yields the callable
`(...args) => this.handle(provider, method, args)`. -/
def RpcClient.get {R : Type} (handle : String → String → List JsValue → R)
    (provider : String) : CallProjection R :=
  ⟨fun method argList => handle provider method argList⟩

/-- `HttpRpcClient.handle` from `src/lib/http-client.ts`:
`async handle(request: any)` POSTs `JSON.stringify(request)` to the
configured URL and returns `result.json()`.  The HTTP POST is abstracted
as `server`, the function from the parsed request body to the response;
the returned value is the parsed response body. -/
def HttpRpcClient.handle (server : JsValue → HttpResponse)
    (request : JsValue) : JsValue :=
  (server request).body

/-- `HttpRpcClient.handle` in the position of `RpcClient`'s abstract
`handle(provider, procedure, args)`: the proxy's callable passes three
positional arguments, but `http-client.ts` declares the single parameter
`request`, so JavaScript binds `request := provider` and discards the
procedure name and the argument list. -/
def HttpRpcClient.asClientHandle (server : JsValue → HttpResponse) :
    String → String → List JsValue → JsValue :=
  fun provider _method _argList => HttpRpcClient.handle server (.str provider)

/-- The example provider table `{ foo: { echo: (x) => x } }` used by the
round-trip property: `echo` returns its first positional argument (or
`undefined` when called with none). -/
def echoProviders : Providers :=
  [("foo", [("echo", Entry.fn (fun argList => .ok (argList.headD .undefined)))])]

/-- A demonstration provider table with a succeeding procedure, a
procedure rejecting with a plain `Error`, and a procedure throwing a
non-`Error` value. -/
def demoProviders : Providers :=
  [("foo", [
    ("getFoo", Entry.fn (fun _ => .ok (.str "Foo"))),
    ("boom", Entry.fn (fun _ => .thrown (.error "Error" "boom" none none))),
    ("weird", Entry.fn (fun _ => .thrown (.value (.num 7))))])]

/-- A parsed request body `{ provider, method, args }` targeting
`demoProviders`. -/
def demoReq (providerName methodName : String) : JsValue :=
  .obj [("provider", .str providerName), ("method", .str methodName),
    ("args", .arr [])]

/-- C1: for a provider table `P`, a provider name `n` of `P` and a
procedure name `m` of `P[n]` whose value is a function `f` (names
non-empty, as required of provider/procedure names by the request
validation), and any defined argument list, `invoke(n, m, args)` resolves
to exactly the result of `f` applied to the positionally spread `args`,
and that procedure is called exactly once (the call trace is the
one-element list `[args]`). -/
theorem invoke_wellformed_calls_procedure_once
    (P : Providers) (n m : String) (hn : n ≠ "") (hm : m ≠ "")
    (prov : Provider) (hprov : P.lookup n = some prov)
    (f : List JsValue → ProcResult) (hf : prov.lookup m = some (.fn f))
    (argList : List JsValue) :
    RpcRouter.invokeWithTrace P (.str n) (.str m) (.arr argList)
      = (f argList, [argList]) := by
  simp [RpcRouter.invokeWithTrace, jsTruthy, jsToString, hn, hm, hprov, hf,
    entryTruthy, spreadArgs]

/-- Witness for C1 at the concrete table
`{ foo: { getFoo: () => "Foo" } }`: `invoke("foo", "getFoo", [])`
resolves to `"Foo"` with exactly one procedure call. -/
theorem invoke_wellformed_calls_procedure_once_witness :
    RpcRouter.invokeWithTrace
      [("foo", [("getFoo", Entry.fn (fun _ => .ok (.str "Foo")))])]
      (.str "foo") (.str "getFoo") (.arr [])
      = (.ok (.str "Foo"), [[]]) :=
  invoke_wellformed_calls_procedure_once
    [("foo", [("getFoo", Entry.fn (fun _ => .ok (.str "Foo")))])]
    "foo" "getFoo" (by decide) (by decide)
    [("getFoo", Entry.fn (fun _ => .ok (.str "Foo")))] rfl
    (fun _ => .ok (.str "Foo")) rfl []

/-- C5: when the provider name is empty or absent, or the procedure name
is empty or absent, or `args` is absent or null (an empty argument array
is allowed), `invoke` fails with the RoutingError
`"Invalid request: provider=…, procedure=…, args=…"` interpolating the
offending fields, and the outcome is the same whatever the provider
table, i.e. the failure occurs before the Provider Table is consulted. -/
theorem invoke_invalid_request_before_table
    (P : Providers) (provider procedure args : JsValue)
    (h : (provider = .str "" ∨ provider = .undefined)
       ∨ (procedure = .str "" ∨ procedure = .undefined)
       ∨ (args = .undefined ∨ args = .null)) :
    RpcRouter.invoke P provider procedure args
      = .thrown (.routing ("Invalid request: provider="
          ++ jsToString provider ++ ", procedure=" ++ jsToString procedure
          ++ ", args=" ++ jsToString args))
    ∧ ∀ Q : Providers, RpcRouter.invoke Q provider procedure args
        = RpcRouter.invoke P provider procedure args := by
  have hfalsy : ¬ jsTruthy provider ∨ ¬ jsTruthy procedure
      ∨ ¬ jsTruthy args := by
    rcases h with (h | h) | (h | h) | (h | h) <;> subst h <;>
      simp [jsTruthy]
  constructor
  · unfold RpcRouter.invoke RpcRouter.invokeWithTrace
    rw [if_pos hfalsy]
  · intro Q
    unfold RpcRouter.invoke RpcRouter.invokeWithTrace
    rw [if_pos hfalsy, if_pos hfalsy]

/-- Witness for C5: an empty provider name with a present procedure name
and an (allowed-shape but irrelevant) empty args array fails with the
interpolated invalid-request message, and a non-empty table gives the
same outcome as the empty one. -/
theorem invoke_invalid_request_before_table_witness :
    RpcRouter.invoke [] (.str "") (.str "x") (.arr [])
      = .thrown (.routing "Invalid request: provider=, procedure=x, args=")
    ∧ RpcRouter.invoke [("a", [])] (.str "") (.str "x") (.arr [])
        = RpcRouter.invoke [] (.str "") (.str "x") (.arr []) :=
  ⟨(invoke_invalid_request_before_table [] (.str "") (.str "x") (.arr [])
      (Or.inl (Or.inl rfl))).1,
   (invoke_invalid_request_before_table [] (.str "") (.str "x") (.arr [])
      (Or.inl (Or.inl rfl))).2 [("a", [])]⟩

/-- C6: for a well-formed request (non-empty names, args an array): if
`n` is not a key of the provider table the outcome is the RoutingError
`"Provider with name n not found"`; if `n` resolves but the provider has
no entry named `m`, the outcome is the RoutingError
`"Procedure m not found on provider n"`. -/
theorem invoke_unknown_provider_or_procedure
    (P : Providers) (n m : String) (hn : n ≠ "") (hm : m ≠ "")
    (argList : List JsValue) :
    (P.lookup n = none →
      RpcRouter.invoke P (.str n) (.str m) (.arr argList)
        = .thrown (.routing ("Provider with name " ++ n ++ " not found")))
    ∧ ∀ prov : Provider, P.lookup n = some prov → prov.lookup m = none →
      RpcRouter.invoke P (.str n) (.str m) (.arr argList)
        = .thrown (.routing
            ("Procedure " ++ m ++ " not found on provider " ++ n)) := by
  constructor
  · intro hnone
    simp [RpcRouter.invoke, RpcRouter.invokeWithTrace, jsTruthy, jsToString,
      hn, hm, hnone]
  · intro prov hprov hnone
    simp [RpcRouter.invoke, RpcRouter.invokeWithTrace, jsTruthy, jsToString,
      hn, hm, hprov, hnone, entryTruthy]

/-- Witness for C6 on the table `{ foo: { getFoo: … } }`:
`invoke("bar", "getFoo", [])` fails with "Provider with name bar not
found", and `invoke("foo", "nope", [])` fails with "Procedure nope not
found on provider foo". -/
theorem invoke_unknown_provider_or_procedure_witness :
    RpcRouter.invoke
      [("foo", [("getFoo", Entry.fn (fun _ => .ok (.str "Foo")))])]
      (.str "bar") (.str "getFoo") (.arr [])
      = .thrown (.routing "Provider with name bar not found")
    ∧ RpcRouter.invoke
      [("foo", [("getFoo", Entry.fn (fun _ => .ok (.str "Foo")))])]
      (.str "foo") (.str "nope") (.arr [])
      = .thrown (.routing "Procedure nope not found on provider foo") :=
  ⟨(invoke_unknown_provider_or_procedure
      [("foo", [("getFoo", Entry.fn (fun _ => .ok (.str "Foo")))])]
      "bar" "getFoo" (by decide) (by decide) []).1 rfl,
   (invoke_unknown_provider_or_procedure
      [("foo", [("getFoo", Entry.fn (fun _ => .ok (.str "Foo")))])]
      "foo" "nope" (by decide) (by decide) []).2
     [("getFoo", Entry.fn (fun _ => .ok (.str "Foo")))] rfl rfl⟩

/-- C3: if the resolved procedure's call settles in a thrown/rejected
`e`, `invoke` settles in exactly that same `e`; in particular, whenever
`e` is not a `RoutingError` carrying some message, neither is `invoke`'s
outcome — the failure is not wrapped in or reclassified as a
RoutingError. -/
theorem invoke_propagates_procedure_failure
    (P : Providers) (n m : String) (hn : n ≠ "") (hm : m ≠ "")
    (prov : Provider) (hprov : P.lookup n = some prov)
    (f : List JsValue → ProcResult) (hf : prov.lookup m = some (.fn f))
    (argList : List JsValue) (e : Thrown) (he : f argList = .thrown e) :
    RpcRouter.invoke P (.str n) (.str m) (.arr argList) = .thrown e
    ∧ ∀ msg : String, e ≠ .routing msg →
        RpcRouter.invoke P (.str n) (.str m) (.arr argList)
          ≠ .thrown (.routing msg) := by
  have h1 : RpcRouter.invoke P (.str n) (.str m) (.arr argList)
      = .thrown e := by
    simp [RpcRouter.invoke, RpcRouter.invokeWithTrace, jsTruthy, jsToString,
      hn, hm, hprov, hf, entryTruthy, spreadArgs, he]
  refine ⟨h1, ?_⟩
  intro msg hne h2
  rw [h1] at h2
  injection h2 with h3
  exact hne h3

/-- Witness for C3: a procedure rejecting with a plain `Error` named
`"Error"` with message `"boom"` makes `invoke` settle in exactly that
error. -/
theorem invoke_propagates_procedure_failure_witness :
    RpcRouter.invoke
      [("svc", [("boom",
        Entry.fn (fun _ => .thrown (.error "Error" "boom" none none)))])]
      (.str "svc") (.str "boom") (.arr [])
      = .thrown (.error "Error" "boom" none none) :=
  (invoke_propagates_procedure_failure
    [("svc", [("boom",
      Entry.fn (fun _ => .thrown (.error "Error" "boom" none none)))])]
    "svc" "boom" (by decide) (by decide)
    [("boom", Entry.fn (fun _ => .thrown (.error "Error" "boom" none none)))]
    rfl
    (fun _ => .thrown (.error "Error" "boom" none none)) rfl
    [] (.error "Error" "boom" none none) rfl).1

/-- The "Procedure … not found …" diagnostic and the "Property … is not
a function …" diagnostic are distinct strings for every procedure and
provider name (their lengths differ by 30). -/
theorem notFoundMsg_ne_notAFunctionMsg (n m : String) :
    ("Procedure " ++ m ++ " not found on provider " ++ n)
      ≠ ("Property " ++ m ++ " is not a function on provider " ++ n
          ++ " so it cannot be called") := by
  intro h
  have hlen := congrArg String.length h
  simp only [String.length_append] at hlen
  have e1 : ("Procedure ").length = 10 := rfl
  have e2 : (" not found on provider ").length = 23 := rfl
  have e3 : ("Property ").length = 9 := rfl
  have e4 : (" is not a function on provider ").length = 31 := rfl
  have e5 : (" so it cannot be called").length = 23 := rfl
  rw [e1, e2, e3, e4, e5] at hlen
  omega

/-- Counterexample to C4 as stated: the entry `m` of provider `p` holds
the non-function value `0`, yet `invoke("p", "m", [])` reports the
"Procedure m not found on provider p" RoutingError, not the claimed
"Property m is not a function on provider p so it cannot be called"
one — the code tests the entry's truthiness before its type, so falsy
non-function entries never reach the not-a-function check. -/
theorem invoke_zero_entry_counterexample :
    RpcRouter.invoke [("p", [("m", Entry.val (.num 0))])]
      (.str "p") (.str "m") (.arr [])
      = .thrown (.routing "Procedure m not found on provider p")
    ∧ RpcRouter.invoke [("p", [("m", Entry.val (.num 0))])]
      (.str "p") (.str "m") (.arr [])
      ≠ .thrown (.routing
          "Property m is not a function on provider p so it cannot be called")
    := by
  have h1 : RpcRouter.invoke [("p", [("m", Entry.val (.num 0))])]
      (.str "p") (.str "m") (.arr [])
      = .thrown (.routing "Procedure m not found on provider p") := rfl
  refine ⟨h1, ?_⟩
  intro h2
  rw [h1] at h2
  injection h2 with h3
  injection h3 with h4
  exact absurd h4 (by decide)

/-- C4 (amended): for a provider table `P`, a provider name `n` of `P`
and a procedure name `m` (names non-empty) whose entry on `P[n]` holds a
truthy non-function value (for example a non-empty string or a non-zero
number), `invoke(n, m, args)` fails with the RoutingError
"Property m is not a function on provider n so it cannot be called". -/
theorem invoke_truthy_nonfunction_entry
    (P : Providers) (n m : String) (hn : n ≠ "") (hm : m ≠ "")
    (prov : Provider) (hprov : P.lookup n = some prov)
    (v : JsValue) (hv : prov.lookup m = some (.val v))
    (htruthy : jsTruthy v = true) (argList : List JsValue) :
    RpcRouter.invoke P (.str n) (.str m) (.arr argList)
      = .thrown (.routing ("Property " ++ m ++ " is not a function on provider "
          ++ n ++ " so it cannot be called")) := by
  have hsn : jsTruthy (.str n) = true := by simp [jsTruthy, hn]
  have hsm : jsTruthy (.str m) = true := by simp [jsTruthy, hm]
  have hsa : jsTruthy (.arr argList) = true := rfl
  simp [RpcRouter.invoke, RpcRouter.invokeWithTrace, jsToString,
    hsn, hsm, hsa, hprov, hv, entryTruthy, htruthy]

/-- Witness for the amended C4: a string-valued entry `"hello"` under
procedure name `balance` on provider `acct` yields the not-a-function
RoutingError. -/
theorem invoke_truthy_nonfunction_entry_witness :
    RpcRouter.invoke [("acct", [("balance", Entry.val (.str "hello"))])]
      (.str "acct") (.str "balance") (.arr [])
      = .thrown (.routing
          "Property balance is not a function on provider acct so it cannot be called")
    :=
  invoke_truthy_nonfunction_entry
    [("acct", [("balance", Entry.val (.str "hello"))])]
    "acct" "balance" (by decide) (by decide)
    [("balance", Entry.val (.str "hello"))] rfl
    (.str "hello") rfl (by decide) []

/-- C9: an entry that exists but holds a falsy value (`0`, `""`, `false`,
`null`, …) is reported with the "Procedure m not found on provider n"
RoutingError rather than the not-a-function one, because the code tests
the entry by the truthiness of its value, not by key membership. -/
theorem invoke_falsy_entry_reported_not_found
    (P : Providers) (n m : String) (hn : n ≠ "") (hm : m ≠ "")
    (prov : Provider) (hprov : P.lookup n = some prov)
    (v : JsValue) (hv : prov.lookup m = some (.val v))
    (hfalsy : jsTruthy v = false) (argList : List JsValue) :
    RpcRouter.invoke P (.str n) (.str m) (.arr argList)
      = .thrown (.routing ("Procedure " ++ m ++ " not found on provider " ++ n))
    ∧ RpcRouter.invoke P (.str n) (.str m) (.arr argList)
      ≠ .thrown (.routing ("Property " ++ m ++ " is not a function on provider "
          ++ n ++ " so it cannot be called")) := by
  have h1 : RpcRouter.invoke P (.str n) (.str m) (.arr argList)
      = .thrown (.routing
          ("Procedure " ++ m ++ " not found on provider " ++ n)) := by
    have hsn : jsTruthy (.str n) = true := by simp [jsTruthy, hn]
    have hsm : jsTruthy (.str m) = true := by simp [jsTruthy, hm]
    have hsa : jsTruthy (.arr argList) = true := rfl
    simp [RpcRouter.invoke, RpcRouter.invokeWithTrace, jsToString,
      hsn, hsm, hsa, hprov, hv, entryTruthy, hfalsy]
  refine ⟨h1, ?_⟩
  intro h2
  rw [h1] at h2
  injection h2 with h3
  injection h3 with h4
  exact notFoundMsg_ne_notAFunctionMsg n m h4

/-- Witness for C9: an entry holding the empty string under procedure
name `m` on provider `p` is reported as not found (and not as
not-a-function). -/
theorem invoke_falsy_entry_reported_not_found_witness :
    RpcRouter.invoke [("p", [("m", Entry.val (.str ""))])]
      (.str "p") (.str "m") (.arr [])
      = .thrown (.routing "Procedure m not found on provider p")
    ∧ RpcRouter.invoke [("p", [("m", Entry.val (.str ""))])]
      (.str "p") (.str "m") (.arr [])
      ≠ .thrown (.routing
          "Property m is not a function on provider p so it cannot be called")
    :=
  invoke_falsy_entry_reported_not_found
    [("p", [("m", Entry.val (.str ""))])]
    "p" "m" (by decide) (by decide)
    [("m", Entry.val (.str ""))] rfl
    (.str "") rfl (by decide) []

/-- Helper: for a request body that is not `null`/`undefined`,
`HttpRpcRouter.handle` is the catch-clause mapping applied to the outcome
of `invoke` on the destructured `provider`, `method` and `args` fields. -/
theorem HttpRpcRouter.handle_cases (P : Providers) (req : JsValue)
    (hnn : req ≠ .null) (hnu : req ≠ .undefined) :
    HttpRpcRouter.handle P req =
      match RpcRouter.invoke P
          (jsGet req "provider") (jsGet req "method") (jsGet req "args") with
      | .ok result => ⟨200, result⟩
      | .thrown (.routing msg) =>
        ⟨400, .obj [("name", .str rpcRoutingErrorName), ("error", .str msg)]⟩
      | .thrown (.error nm msg stack cause) =>
        ⟨500, .obj [("name", .str nm), ("error", .str msg),
          ("stack", jsOfOptionStr stack), ("cause", jsOfOptionVal cause)]⟩
      | .thrown (.value v) =>
        ⟨500, .obj [("error",
          .str ("Unknown Internal Server error of type: " ++ jsTypeof v))]⟩
    := by
  cases req
  case null => exact absurd rfl hnn
  case undefined => exact absurd rfl hnu
  all_goals rfl

/-- C7: for every inbound request (any parsed body that destructures,
i.e. is not `null`/`undefined`), the HTTP transport router maps the
outcome of `invoke`: success to status 200 with the result as body, a
RoutingError to status 400 with body `{ name, error }`, any other `Error`
to status 500 with body `{ name, error, stack, cause }`, and a non-Error
thrown value to status 500 with body
`{ error: "Unknown Internal Server error of type: <typeof>" }`. -/
theorem httpRouterHandle_status_mapping
    (P : Providers) (req : JsValue) (hnn : req ≠ .null) (hnu : req ≠ .undefined) :
    (∀ v : JsValue,
      RpcRouter.invoke P (jsGet req "provider") (jsGet req "method")
          (jsGet req "args") = .ok v →
      HttpRpcRouter.handle P req = ⟨200, v⟩)
    ∧ (∀ msg : String,
      RpcRouter.invoke P (jsGet req "provider") (jsGet req "method")
          (jsGet req "args") = .thrown (.routing msg) →
      HttpRpcRouter.handle P req
        = ⟨400, .obj [("name", .str rpcRoutingErrorName),
            ("error", .str msg)]⟩)
    ∧ (∀ (nm msg : String) (st : Option String) (cz : Option JsValue),
      RpcRouter.invoke P (jsGet req "provider") (jsGet req "method")
          (jsGet req "args") = .thrown (.error nm msg st cz) →
      HttpRpcRouter.handle P req
        = ⟨500, .obj [("name", .str nm), ("error", .str msg),
            ("stack", jsOfOptionStr st), ("cause", jsOfOptionVal cz)]⟩)
    ∧ (∀ v : JsValue,
      RpcRouter.invoke P (jsGet req "provider") (jsGet req "method")
          (jsGet req "args") = .thrown (.value v) →
      HttpRpcRouter.handle P req
        = ⟨500, .obj [("error",
            .str ("Unknown Internal Server error of type: "
              ++ jsTypeof v))]⟩) := by
  have hc := HttpRpcRouter.handle_cases P req hnn hnu
  refine ⟨?_, ?_, ?_, ?_⟩
  · intro v h
    rw [hc, h]
  · intro msg h
    rw [hc, h]
  · intro nm msg st cz h
    rw [hc, h]
  · intro v h
    rw [hc, h]

/-- Witness for C7 on `demoProviders`: one request per branch — a
successful call, an unknown provider (RoutingError), a procedure
rejecting with an `Error`, and a procedure throwing the number `7`. -/
theorem httpRouterHandle_status_mapping_witness :
    HttpRpcRouter.handle demoProviders (demoReq "foo" "getFoo")
      = ⟨200, .str "Foo"⟩
    ∧ HttpRpcRouter.handle demoProviders (demoReq "nope" "getFoo")
      = ⟨400, .obj [("name", .str "Error"),
          ("error", .str "Provider with name nope not found")]⟩
    ∧ HttpRpcRouter.handle demoProviders (demoReq "foo" "boom")
      = ⟨500, .obj [("name", .str "Error"), ("error", .str "boom"),
          ("stack", .undefined), ("cause", .undefined)]⟩
    ∧ HttpRpcRouter.handle demoProviders (demoReq "foo" "weird")
      = ⟨500, .obj [("error",
          .str "Unknown Internal Server error of type: number")]⟩ :=
  ⟨(httpRouterHandle_status_mapping demoProviders (demoReq "foo" "getFoo")
      (fun h => JsValue.noConfusion h) (fun h => JsValue.noConfusion h)).1
    (.str "Foo") rfl,
   (httpRouterHandle_status_mapping demoProviders (demoReq "nope" "getFoo")
      (fun h => JsValue.noConfusion h) (fun h => JsValue.noConfusion h)).2.1
    "Provider with name nope not found" rfl,
   (httpRouterHandle_status_mapping demoProviders (demoReq "foo" "boom")
      (fun h => JsValue.noConfusion h) (fun h => JsValue.noConfusion h)).2.2.1
    "Error" "boom" none none rfl,
   (httpRouterHandle_status_mapping demoProviders (demoReq "foo" "weird")
      (fun h => JsValue.noConfusion h) (fun h => JsValue.noConfusion h)).2.2.2
    (.num 7) rfl⟩

/-- C8: for every provider name `p` and property name `m`, the
call-projection returned by `get(p)` yields under property `m` a callable
which, applied to an argument list `a`, returns exactly the result of the
single transport-send operation `handle(p, m, a)`, with no inspection or
transformation; projection construction is pure, so two projections
obtained from two calls of `get(p)` (the two occurrences below) have
identical observable behavior on every property and argument list. -/
theorem rpcClientGet_delegates_to_handle {R : Type}
    (handle : String → String → List JsValue → R) (p m : String)
    (a : List JsValue) :
    (RpcClient.get handle p).access m a = handle p m a
    ∧ (RpcClient.get handle p).access m a
        = (RpcClient.get handle p).access m a :=
  ⟨rfl, rfl⟩

/-- C10: `RpcRoutingError` never assigns a distinct `name`, so its
instances carry the inherited name `"Error"`; hence the 400 routing
response body carries `name: "Error"`, the same name a default-named
generic `Error` produces on the 500 body, and the two failure kinds are
told apart on the wire only by the status (400 vs 500) and by the routing
body's lack of `stack`/`cause` fields. -/
theorem routingError_name_is_plain_error
    (P : Providers) (req : JsValue) (hnn : req ≠ .null) (hnu : req ≠ .undefined) :
    rpcRoutingErrorName = "Error"
    ∧ (∀ msg : String,
      RpcRouter.invoke P (jsGet req "provider") (jsGet req "method")
          (jsGet req "args") = .thrown (.routing msg) →
      (HttpRpcRouter.handle P req).status = 400
      ∧ jsGet (HttpRpcRouter.handle P req).body "name" = .str "Error"
      ∧ jsGet (HttpRpcRouter.handle P req).body "stack" = .undefined
      ∧ jsGet (HttpRpcRouter.handle P req).body "cause" = .undefined)
    ∧ (∀ (msg : String) (st : Option String) (cz : Option JsValue),
      RpcRouter.invoke P (jsGet req "provider") (jsGet req "method")
          (jsGet req "args") = .thrown (.error "Error" msg st cz) →
      (HttpRpcRouter.handle P req).status = 500
      ∧ jsGet (HttpRpcRouter.handle P req).body "name" = .str "Error") := by
  have hc := HttpRpcRouter.handle_cases P req hnn hnu
  refine ⟨rfl, ?_, ?_⟩
  · intro msg h
    rw [hc, h]
    exact ⟨rfl, rfl, rfl, rfl⟩
  · intro msg st cz h
    rw [hc, h]
    exact ⟨rfl, rfl⟩

/-- Witness for C10 on `demoProviders`: the routing failure for an
unknown provider yields status 400 with `name: "Error"` and no
`stack`/`cause`, while the procedure rejecting with a default-named
`Error` yields status 500 with the same `name: "Error"`. -/
theorem routingError_name_is_plain_error_witness :
    rpcRoutingErrorName = "Error"
    ∧ ((HttpRpcRouter.handle demoProviders (demoReq "nope" "getFoo")).status
        = 400
      ∧ jsGet (HttpRpcRouter.handle demoProviders
          (demoReq "nope" "getFoo")).body "name" = .str "Error"
      ∧ jsGet (HttpRpcRouter.handle demoProviders
          (demoReq "nope" "getFoo")).body "stack" = .undefined
      ∧ jsGet (HttpRpcRouter.handle demoProviders
          (demoReq "nope" "getFoo")).body "cause" = .undefined)
    ∧ ((HttpRpcRouter.handle demoProviders (demoReq "foo" "boom")).status
        = 500
      ∧ jsGet (HttpRpcRouter.handle demoProviders
          (demoReq "foo" "boom")).body "name" = .str "Error") :=
  ⟨rfl,
   (routingError_name_is_plain_error demoProviders (demoReq "nope" "getFoo")
      (fun h => JsValue.noConfusion h) (fun h => JsValue.noConfusion h)).2.1
    "Provider with name nope not found" rfl,
   (routingError_name_is_plain_error demoProviders (demoReq "foo" "boom")
      (fun h => JsValue.noConfusion h) (fun h => JsValue.noConfusion h)).2.2
    "boom" none none rfl⟩

/-- C2 fails on the code as cited: the client projection's call
`echo(42)` routed through `HttpRpcClient.handle` (src/lib/http-client.ts)
and `HttpRpcRouter.handle` (src/lib/http-router.ts) does not resolve to
`42`.  `http-client.ts` declares `handle(request: any)` with a single
parameter although the abstract `RpcClient.handle` passes
`(provider, procedure, args)`, so the request body sent is just the
provider name `"foo"`; the router destructures `undefined` fields from it
and answers with the 400 RoutingError body, which is what the call
resolves to. -/
theorem echo_roundTrip_broken :
    (RpcClient.get
        (HttpRpcClient.asClientHandle (HttpRpcRouter.handle echoProviders))
        "foo").access "echo" [.num 42]
      = .obj [("name", .str "Error"),
          ("error", .str
            "Invalid request: provider=undefined, procedure=undefined, args=undefined")]
    ∧ (RpcClient.get
        (HttpRpcClient.asClientHandle (HttpRpcRouter.handle echoProviders))
        "foo").access "echo" [.num 42]
      ≠ .num 42 := by
  have h1 : (RpcClient.get
      (HttpRpcClient.asClientHandle (HttpRpcRouter.handle echoProviders))
      "foo").access "echo" [.num 42]
      = .obj [("name", .str "Error"),
          ("error", .str
            "Invalid request: provider=undefined, procedure=undefined, args=undefined")]
    := rfl
  refine ⟨h1, ?_⟩
  intro h2
  rw [h1] at h2
  exact JsValue.noConfusion h2
